import Mathlib

/-!
Formal model of the OneStep BabyShop order/payment lifecycle.

This file shallowly embeds the Django models and serializers of the
repository (cart/models.py, orders/models.py, orders/serializers.py,
orders/views.py, payments/models.py, payments/serializers.py) as pure Lean
functions and proves properties of them.

Modelling conventions:
- Monetary amounts (Django DecimalField) are modeled as Int; all arithmetic
  appearing in the source on these fields is exact (+, -, *), so Int is a
  faithful carrier.
- Time instants (timezone.now()) are modeled as Nat parameters threaded into
  each operation.
- Database identity (pk / id) is Option Nat: none before the first insert.
- Nullable datetime columns are Option Nat; blank CharFields are String with
  "" for blank.  Python truthiness on these fields ("x or y") is modeled by
  emptiness / none tests, matching Python where both None and "" are falsy.
- Randomness (order-number and reference generation) and fresh primary keys
  are passed in as explicit parameters.
- Fields of the Django models that no modeled operation reads or writes
  (audit metadata, user foreign keys, billing address mirror, webhook and
  refund bookkeeping) are omitted from the structures.
-/

namespace BabyShop

/-- A point in time (timezone.now() value). -/
abbrev Time := Nat

/-- Python `a or b` on strings: `""` and `None` are falsy (both modeled as `""`). -/
def pyOr (a b : String) : String :=
  if a = "" then b else a

/-! ## Catalog fragment

`products.ProductVariant` as far as the cart logic reads it: the cart only
uses a variant's identity, size and color (`CartItem.save` defaults blank
size/color from the chosen variant). -/

structure Variant where
  id : Nat
  size : String
  color : String
deriving Repr, DecidableEq

/-! ## Cart (cart/models.py)

A `Cart` is its list of `CartItem` rows (the Cart row itself carries only
an owner and timestamps, none of which the modeled operations read).
`unitPrice` models the catalog price read through the line's product/variant
reference (`CartItem.unit_price` property: `variant.current_price` or
`product.price`); `productName`/`productCode` likewise model the referenced
product's snapshot-source fields used at checkout. -/

structure CartItem where
  id : Nat
  product : Nat
  variant : Option Variant
  size : String
  color : String
  quantity : Int
  unitPrice : Int
  productName : String
  productCode : String
deriving Repr, DecidableEq

abbrev Cart := List CartItem

/-- `CartItem.save`: default blank size/color from the variant, then clamp
quantity up to 1 (`if self.quantity < 1: self.quantity = 1`). -/
def CartItem.applySave (it : CartItem) : CartItem :=
  let it := match it.variant with
    | none => it
    | some v =>
      let it := if it.size = "" then { it with size := v.size } else it
      if it.color = "" then { it with color := v.color } else it
  if it.quantity < 1 then { it with quantity := 1 } else it

/-- The filter used by `Cart.add_item` / `get_item_by_product`:
`self.items.filter(product=product, variant=variant, size=size, color=color)`. -/
def CartItem.lineMatches (it : CartItem) (product : Nat) (variant : Option Variant)
    (size color : String) : Bool :=
  it.product == product && it.variant == variant && it.size == size && it.color == color

/-- Replace the first element satisfying `p` by its image under `f`
(models mutating the single row returned by `.filter(...).first()`). -/
def updateFirstMatch (p : α → Bool) (f : α → α) : List α → List α
  | [] => []
  | x :: xs => if p x then f x :: xs else x :: updateFirstMatch p f xs

/-- `Cart.add_item(product, quantity=1, variant=None, size='', color='')`.
Returns the updated cart together with the resulting line.  `freshId` is the
primary key the database would assign to a newly created row;
`unitPrice`/`productName`/`productCode` are the catalog data reachable from
`product`/`variant`. -/
def Cart.add_item (cart : Cart) (product : Nat) (quantity : Int)
    (variant : Option Variant) (size color : String)
    (unitPrice : Int) (productName productCode : String) (freshId : Nat) :
    Cart × CartItem :=
  match cart.find? (fun it => it.lineMatches product variant size color) with
  | some existing =>
    let updated := CartItem.applySave { existing with quantity := existing.quantity + quantity }
    (updateFirstMatch (fun it => it.lineMatches product variant size color)
      (fun it => CartItem.applySave { it with quantity := it.quantity + quantity }) cart,
     updated)
  | none =>
    let newItem := CartItem.applySave
      { id := freshId, product := product, variant := variant, size := size,
        color := color, quantity := quantity, unitPrice := unitPrice,
        productName := productName, productCode := productCode }
    (cart ++ [newItem], newItem)

/-- `Cart.update_item_quantity(item_id, quantity)`: on the line with the given
id, delete it when `quantity <= 0` (returning `none`), otherwise set the
quantity and return the line; a missing id returns `none` with the cart
unchanged. -/
def Cart.update_item_quantity (cart : Cart) (itemId : Nat) (quantity : Int) :
    Cart × Option CartItem :=
  match cart.find? (fun it => it.id == itemId) with
  | none => (cart, none)
  | some it =>
    if quantity ≤ 0 then
      (cart.eraseP (fun x => x.id == itemId), none)
    else
      (updateFirstMatch (fun x => x.id == itemId)
        (fun x => CartItem.applySave { x with quantity := quantity }) cart,
       some (CartItem.applySave { it with quantity := quantity }))

/-- `Cart.remove_item(item_id)`: delete the line if present, report success. -/
def Cart.remove_item (cart : Cart) (itemId : Nat) : Cart × Bool :=
  match cart.find? (fun it => it.id == itemId) with
  | none => (cart, false)
  | some _ => (cart.eraseP (fun x => x.id == itemId), true)

/-- `CartItem.increase_quantity(amount=1)`. -/
def CartItem.increase_quantity (it : CartItem) (amount : Int) : CartItem :=
  CartItem.applySave { it with quantity := it.quantity + amount }

/-- `CartItem.decrease_quantity(amount=1)`: `self.quantity = max(1, self.quantity - amount)`. -/
def CartItem.decrease_quantity (it : CartItem) (amount : Int) : CartItem :=
  CartItem.applySave { it with quantity := max 1 (it.quantity - amount) }

/-- `Cart.total_items`: sum of line quantities. -/
def Cart.total_items (cart : Cart) : Int :=
  (cart.map (fun it => it.quantity)).sum

/-! ## Orders (orders/models.py)

The `Order` row.  Monetary breakdown, both status fields, the stage
timestamps and the fields written by checkout and by the payment
propagation are modeled; audit metadata, the user/address foreign keys and
the billing-address mirror (written only when `billing_same_as_shipping`)
are omitted, as no modeled claim reads them. -/

structure Order where
  pk : Option Nat
  orderNumber : String
  status : String
  paymentStatus : String
  paymentMethod : String
  paymentReference : String
  paymentDate : Option Time
  shippingMethod : String
  shippingCounty : String
  subtotal : Int
  shippingCost : Int
  taxAmount : Int
  discountAmount : Int
  totalAmount : Int
  giftWrapping : Bool
  giftWrappingFee : Int
  confirmedAt : Option Time
  processedAt : Option Time
  shippedAt : Option Time
  deliveredAt : Option Time
  cancelledAt : Option Time
deriving Repr, DecidableEq

/-- `OrderItem`: the point-in-time snapshot captured at order creation.
`totalPrice` is set by `OrderItem.save` (`unit_price * quantity`). -/
structure OrderItem where
  product : Nat
  productName : String
  productCode : String
  size : String
  color : String
  unitPrice : Int
  quantity : Int
  totalPrice : Int
deriving Repr, DecidableEq

/-- `Order.calculate_totals`: no-op before the first insert; afterwards
`subtotal = sum of item.total_price` and
`total_amount = subtotal + shipping_cost + tax_amount + gift_wrapping_fee - discount_amount`. -/
def Order.calculate_totals (o : Order) (items : List OrderItem) : Order :=
  if o.pk = none then o
  else
    let subtotal := (items.map (fun it => it.totalPrice)).sum
    { o with
      subtotal := subtotal,
      totalAmount := subtotal + o.shippingCost + o.taxAmount + o.giftWrappingFee - o.discountAmount }

/-- The `elif` chain in `Order.save` stamping each stage timestamp on first
entry into the corresponding status. -/
def Order.stampStatusTimestamps (o : Order) (now : Time) : Order :=
  if o.status = "confirmed" ∧ o.confirmedAt = none then { o with confirmedAt := some now }
  else if o.status = "processing" ∧ o.processedAt = none then { o with processedAt := some now }
  else if o.status = "shipped" ∧ o.shippedAt = none then { o with shippedAt := some now }
  else if o.status = "delivered" ∧ o.deliveredAt = none then { o with deliveredAt := some now }
  else if o.status = "cancelled" ∧ o.cancelledAt = none then { o with cancelledAt := some now }
  else o

/-- `Order.save`: generate an order number when blank (`gennum` models the
random `generate_order_number()` result), recompute totals only when the row
already has a pk, stamp stage timestamps, then insert (assigning `freshPk`)
or update.  The billing-address mirroring block touches only omitted billing
fields. -/
def Order.save (o : Order) (items : List OrderItem) (now : Time)
    (gennum : String) (freshPk : Nat) : Order :=
  let o := if o.orderNumber = "" then { o with orderNumber := gennum } else o
  let o := if o.pk ≠ none then o.calculate_totals items else o
  let o := o.stampStatusTimestamps now
  if o.pk = none then { o with pk := some freshPk } else o

/-- `Order.can_be_cancelled`. -/
def Order.can_be_cancelled (o : Order) : Bool :=
  o.status = "pending" || o.status = "confirmed" || o.status = "processing"

/-- `Order.mark_as_paid(payment_method, reference)`: unconditionally sets
payment_status='paid', records method and reference, stamps
`payment_date = timezone.now()`, sets status='confirmed', and saves. -/
def Order.mark_as_paid (o : Order) (items : List OrderItem)
    (paymentMethod reference : String) (now : Time)
    (gennum : String) (freshPk : Nat) : Order :=
  Order.save
    { o with
      paymentStatus := "paid",
      paymentMethod := paymentMethod,
      paymentReference := reference,
      paymentDate := some now,
      status := "confirmed" }
    items now gennum freshPk

/-! ## Payments (payments/models.py)

The `Payment` row.  The order foreign key is non-nullable in the source
(`on_delete=PROTECT`, no `null=True`), so every modeled payment operation
takes the associated `Order` (and its items) and returns the updated pair.
Refund/error bookkeeping fields and audit metadata are omitted (no modeled
claim reads them). -/

structure Payment where
  id : Option Nat
  paymentReference : String
  gatewayReference : String
  amount : Int
  currency : String
  paymentGateway : String
  paymentMethod : String
  status : String
  mobileNumber : String
  mobileNetwork : String
  transactionCode : String
  cardLast4 : String
  cardBrand : String
  bankName : String
  accountName : String
  accountNumber : String
  initiatedAt : Option Time
  paidAt : Option Time
deriving Repr, DecidableEq

/-- The mobile-money gateways listed in `Payment.save` / `mark_as_successful`. -/
def mobileMoneyGateways : List String :=
  ["mpesa", "airtel_money", "tkash", "equitel"]

/-- Zero-padded decimal of width 8, as in Python `f"{i:08d}"`. -/
def pad8 (i : Nat) : String :=
  let s := toString i
  String.mk (List.replicate (8 - s.length) (Char.ofNat 48)) ++ s

/-- `f"{self.payment_gateway.upper()}-{self.id:08d}"`. -/
def mkTransactionCode (gateway : String) (i : Nat) : String :=
  gateway.toUpper ++ "-" ++ pad8 i

/-- `Payment._fix_associated_order`: force the order's payment_status to
'paid', backfill its payment_date from `paid_at` (falling back to now), and
advance a still-pending order to 'confirmed'; the order is saved only when
one of the three changed. -/
def Payment.fix_associated_order (p : Payment) (o : Order) (items : List OrderItem)
    (now : Time) (gennum : String) (freshOrderPk : Nat) : Order :=
  let s1 := if o.paymentStatus ≠ "paid"
    then ({ o with paymentStatus := "paid" }, true) else (o, false)
  let s2 := if s1.1.paymentDate = none
    then ({ s1.1 with paymentDate := some (p.paidAt.getD now) }, true) else s1
  let s3 := if s2.1.status = "pending"
    then ({ s2.1 with status := "confirmed" }, true) else s2
  if s3.2 then Order.save s3.1 items now gennum freshOrderPk else s3.1

/-- `Payment.save`: stamp initiated_at on first save, then the three
"PRODUCTION FIX" blocks for successful payments (backfill paid_at, backfill
gateway_reference, auto-generate a mobile-money transaction code), then the
database write (assigning `freshId` on insert), then `_fix_associated_order`
for successful payments.  The transaction-code f-string formats `self.id`
with `:08d`, which raises `TypeError` when the row has no id yet — modeled
as the `Except.error` case. -/
def Payment.save (p : Payment) (o : Order) (items : List OrderItem) (now : Time)
    (gennum : String) (freshOrderPk freshId : Nat) :
    Except String (Payment × Order) :=
  let p := if p.id = none ∧ p.initiatedAt = none
    then { p with initiatedAt := some now } else p
  let p := if p.status = "successful" ∧ p.paidAt = none
    then { p with paidAt := some now } else p
  let p := if p.status = "successful" ∧ p.gatewayReference = ""
    then { p with gatewayReference := "AUTO-REF-" ++ p.paymentReference } else p
  let step3 : Except String Payment :=
    if p.status = "successful" ∧ p.paymentGateway ∈ mobileMoneyGateways ∧
        p.transactionCode = "" then
      match p.id with
      | none => Except.error ("TypeError: unsupported format string passed to NoneType.__format__")
      | some i => Except.ok { p with transactionCode := mkTransactionCode p.paymentGateway i }
    else Except.ok p
  match step3 with
  | Except.error e => Except.error e
  | Except.ok p =>
    let p := if p.id = none then { p with id := some freshId } else p
    let o := if p.status = "successful"
      then p.fix_associated_order o items now gennum freshOrderPk else o
    Except.ok (p, o)

/-- The optional method-specific detail kwargs accepted by
`mark_as_successful`; `some v` models `field in kwargs`. -/
structure PaymentDetails where
  cardLast4 : Option String := none
  cardBrand : Option String := none
  bankName : Option String := none
  accountName : Option String := none
  accountNumber : Option String := none
  mobileNumber : Option String := none
  mobileNetwork : Option String := none
  transactionCode : Option String := none
deriving Repr, DecidableEq

/-- The `for field in update_fields: if field in kwargs: setattr(...)` loop. -/
def Payment.applyDetails (p : Payment) (d : PaymentDetails) : Payment :=
  { p with
    cardLast4 := d.cardLast4.getD p.cardLast4,
    cardBrand := d.cardBrand.getD p.cardBrand,
    bankName := d.bankName.getD p.bankName,
    accountName := d.accountName.getD p.accountName,
    accountNumber := d.accountNumber.getD p.accountNumber,
    mobileNumber := d.mobileNumber.getD p.mobileNumber,
    mobileNetwork := d.mobileNetwork.getD p.mobileNetwork,
    transactionCode := d.transactionCode.getD p.transactionCode }

/-- Tail of `mark_as_successful` after the transaction-code step: `self.save()`
followed by `self.order.mark_as_paid(payment_method=self.payment_gateway,
reference=self.payment_reference)` (the fallback branch of the `try` is dead
in this model, where `mark_as_paid` cannot raise). -/
def Payment.markSuccessfulFinish (p : Payment) (o : Order) (items : List OrderItem)
    (now : Time) (gennum : String) (freshOrderPk freshId : Nat) :
    Except String (Payment × Order) :=
  match Payment.save p o items now gennum freshOrderPk freshId with
  | Except.error e => Except.error e
  | Except.ok (p, o) =>
    Except.ok (p, Order.mark_as_paid o items p.paymentGateway p.paymentReference
      now gennum freshOrderPk)

/-- `Payment.mark_as_successful(gateway_ref=None, **kwargs)`:
status := successful; gateway_reference := first truthy of the argument, the
stored value, and `"GW-REF-" ++ payment_reference`; paid_at stamped if unset;
detail kwargs applied; a mobile-money transaction code auto-generated when
missing (again formatting `self.id`, hence fallible); then save and
propagate to the order.  `gatewayRef = ""` models an absent/None argument. -/
def Payment.mark_as_successful (p : Payment) (o : Order) (items : List OrderItem)
    (gatewayRef : String) (details : PaymentDetails) (now : Time)
    (gennum : String) (freshOrderPk freshId : Nat) :
    Except String (Payment × Order) :=
  let p := { p with status := "successful" }
  let p := { p with
    gatewayReference := pyOr gatewayRef (pyOr p.gatewayReference ("GW-REF-" ++ p.paymentReference)) }
  let p := if p.paidAt = none then { p with paidAt := some now } else p
  let p := p.applyDetails details
  if p.paymentGateway ∈ mobileMoneyGateways ∧ p.transactionCode = "" then
    match p.id with
    | none => Except.error ("TypeError: unsupported format string passed to NoneType.__format__")
    | some i =>
      Payment.markSuccessfulFinish { p with transactionCode := mkTransactionCode p.paymentGateway i }
        o items now gennum freshOrderPk freshId
  else
    Payment.markSuccessfulFinish p o items now gennum freshOrderPk freshId

/-- Python `str(x)` on an optional id (`f"MPESA-AUTO-{self.id}"` prints
`None` for a missing id instead of raising). -/
def pyStrOptNat : Option Nat → String
  | none => "None"
  | some i => toString i

/-- `Payment.can_be_refunded`: when the payment is successful but paid_at is
missing, self-heal (backfill paid_at, gateway_reference and an mpesa
transaction code, save, then re-synchronize a not-yet-paid order) and return
true; otherwise report `status == 'successful' and paid_at is not None`.
Returns the flag together with the possibly-repaired payment and order. -/
def Payment.can_be_refunded (p : Payment) (o : Order) (items : List OrderItem)
    (now : Time) (gennum : String) (freshOrderPk freshId : Nat) :
    Except String (Bool × Payment × Order) :=
  if p.status = "successful" ∧ p.paidAt = none then
    let p := { p with paidAt := some now }
    let p := if p.gatewayReference = ""
      then { p with gatewayReference := "AUTO-FIX-GW-" ++ p.paymentReference } else p
    let p := if p.paymentGateway = "mpesa" ∧ p.transactionCode = ""
      then { p with transactionCode := "MPESA-AUTO-" ++ pyStrOptNat p.id } else p
    match Payment.save p o items now gennum freshOrderPk freshId with
    | Except.error e => Except.error e
    | Except.ok (p, o) =>
      let o :=
        if o.paymentStatus ≠ "paid" then
          let o := { o with paymentStatus := "paid", paymentDate := p.paidAt }
          let o := if o.status = "pending" then { o with status := "confirmed" } else o
          Order.save o items now gennum freshOrderPk
        else o
      Except.ok (true, p, o)
  else
    Except.ok (p.status = "successful" ∧ p.paidAt ≠ none, p, o)

/-! ## Order status updates (orders/serializers.py, OrderStatusUpdateSerializer) -/

/-- `dict(Order.ORDER_STATUS_CHOICES)` / `get_status_display()`. -/
def orderStatusDisplay : String → String
  | "draft" => "Draft"
  | "pending" => "Pending"
  | "confirmed" => "Confirmed"
  | "processing" => "Processing"
  | "shipped" => "Shipped"
  | "delivered" => "Delivered"
  | "cancelled" => "Cancelled"
  | "refunded" => "Refunded"
  | other => other

/-- The `allowed_transitions` dict in
`OrderStatusUpdateSerializer.validate_status`; `.get(current_status, [])`
yields `[]` for any unlisted current status. -/
def allowedOrderTransitions : String → List String
  | "pending" => ["confirmed", "cancelled"]
  | "confirmed" => ["processing", "cancelled"]
  | "processing" => ["shipped", "cancelled"]
  | "shipped" => ["delivered"]
  | "delivered" => ["refunded"]
  | "cancelled" => []
  | "refunded" => []
  | _ => []

/-- `OrderStatusUpdateSerializer.validate_status`: accept the new status iff
the transition is allowed; otherwise a ValidationError whose message names
the displayed current and attempted statuses (modeled as the error payload). -/
def validate_order_status (currentStatus newStatus : String) :
    Except (String × String) String :=
  if newStatus ∈ allowedOrderTransitions currentStatus then Except.ok newStatus
  else Except.error (orderStatusDisplay currentStatus, orderStatusDisplay newStatus)

/-- The guided status-update path (PATCH /orders/{order_number}/status/):
validate the requested status against the current one; on success write it
through `Order.save`, on failure leave the order untouched. -/
def applyOrderStatusUpdate (o : Order) (items : List OrderItem) (newStatus : String)
    (now : Time) (gennum : String) (freshPk : Nat) :
    Except (String × String) Order :=
  match validate_order_status o.status newStatus with
  | Except.error e => Except.error e
  | Except.ok v => Except.ok (Order.save { o with status := v } items now gennum freshPk)

/-! ## Checkout (orders/serializers.py CheckoutSerializer, orders/views.py CheckoutView) -/

/-- The checkout request, after address resolution: `county` is the county of
the resolved shipping address (`data['shipping_address'].county`). -/
structure CheckoutParams where
  shippingMethod : String
  paymentMethod : String
  county : String
  giftWrapping : Bool := false
deriving Repr, DecidableEq

/-- Python `str.lower()` (ASCII), as applied to the shipping county; stated
on the character list so that it evaluates. -/
def pyLower (s : String) : String :=
  String.mk (s.data.map Char.toLower)

/-- The Kenya shipping-method check at the end of `CheckoutSerializer.validate`. -/
def validateCheckoutShipping (shippingMethod county : String) : Except String Unit :=
  if shippingMethod = "nairobi_only" ∧ pyLower county ≠ "nairobi" then
    Except.error ("Nairobi-only delivery is only available for Nairobi county.")
  else if shippingMethod = "other_towns" ∧ pyLower county = "nairobi" then
    Except.error ("Other towns delivery is not available for Nairobi county.")
  else Except.ok ()

/-- `Order.objects.create(...)` in `CheckoutView.create`: a fresh row carrying
only the request fields, every other column at its model default. -/
def Order.fromCheckout (params : CheckoutParams) : Order :=
  { pk := none, orderNumber := "", status := "pending", paymentStatus := "pending",
    paymentMethod := params.paymentMethod, paymentReference := "", paymentDate := none,
    shippingMethod := params.shippingMethod, shippingCounty := "",
    subtotal := 0, shippingCost := 0, taxAmount := 0, discountAmount := 0,
    totalAmount := 0, giftWrapping := params.giftWrapping, giftWrappingFee := 0,
    confirmedAt := none, processedAt := none, shippedAt := none,
    deliveredAt := none, cancelledAt := none }

/-- `OrderItem.objects.create` for one cart line, as completed by
`OrderItem.save`: copy the snapshot fields and the current unit price, and
set `total_price = unit_price * quantity`. -/
def OrderItem.fromCartLine (line : CartItem) : OrderItem :=
  { product := line.product, productName := line.productName,
    productCode := line.productCode, size := line.size, color := line.color,
    unitPrice := line.unitPrice, quantity := line.quantity,
    totalPrice := line.unitPrice * line.quantity }

/-- The side effect at the end of `OrderItem.save`:
`self.order.calculate_totals(); self.order.save()`. -/
def checkoutItemStep (now : Time) (gennum : String) (freshPk : Nat)
    (acc : Order × List OrderItem) (line : CartItem) : Order × List OrderItem :=
  let items := acc.2 ++ [OrderItem.fromCartLine line]
  let o := (acc.1.calculate_totals items).save items now gennum freshPk
  (o, items)

/-- `CheckoutView.create`: serializer validation (shipping method vs resolved
county), the cart-emptiness check, order creation, address denormalization
(`populate_from_user_address`, modeled on the county field), one `OrderItem`
per cart line, a final totals recomputation and save, and the cart clear.
Returns the persisted order, its items and the (emptied) cart. -/
def checkout (cart : Cart) (params : CheckoutParams) (now : Time)
    (gennum : String) (freshOrderPk : Nat) :
    Except String (Order × List OrderItem × Cart) :=
  match validateCheckoutShipping params.shippingMethod params.county with
  | Except.error e => Except.error e
  | Except.ok _ =>
    if cart.total_items = 0 then Except.error ("Your cart is empty.")
    else
      let o := Order.save (Order.fromCheckout params) [] now gennum freshOrderPk
      let o := { o with shippingCounty := params.county }
      let acc := cart.foldl (checkoutItemStep now gennum freshOrderPk) (o, [])
      let o := (acc.1.calculate_totals acc.2).save acc.2 now gennum freshOrderPk
      Except.ok (o, acc.2, ([] : Cart))

/-! ## Payment creation (payments/models.py field default,
payments/serializers.py PaymentCreateSerializer) -/

/-- The `status` column default on the Payment model:
`models.CharField(..., default='pending')`. -/
def paymentStatusFieldDefault : String := "pending"

/-- A Payment instantiated without an explicit status: every modeled column
at its model default, the required columns from the arguments. -/
def Payment.newWithDefaults (ref : String) (amount : Int) (gateway : String) : Payment :=
  { id := none, paymentReference := ref, gatewayReference := "",
    amount := amount, currency := "KES", paymentGateway := gateway,
    paymentMethod := "", status := paymentStatusFieldDefault,
    mobileNumber := "", mobileNetwork := "", transactionCode := "",
    cardLast4 := "", cardBrand := "", bankName := "", accountName := "",
    accountNumber := "", initiatedAt := none, paidAt := none }

/-- `PaymentCreateSerializer.create`: generate a reference from the order
number and a timestamp when none is supplied (`ts` models
`timezone.now().strftime('%H%M%S')`), then `Payment.objects.create(...,
status='initiated', ...)` — which runs `Payment.save`. -/
def paymentCreateSerializer_create (o : Order) (items : List OrderItem)
    (refArg : String) (amount : Int) (gateway : String) (ts : String)
    (now : Time) (gennum : String) (freshOrderPk freshId : Nat) :
    Except String (Payment × Order) :=
  let ref := pyOr refArg ("PAY-" ++ o.orderNumber ++ "-" ++ ts)
  Payment.save
    { Payment.newWithDefaults ref amount gateway with status := "initiated" }
    o items now gennum freshOrderPk freshId

/-- Derived closed form of the three "PRODUCTION FIX" field updates performed
by `Payment.save` on an already-inserted successful payment (id = some i);
used only to state proof lemmas about `Payment.save`. -/
def Payment.saveFixes (p : Payment) (now : Time) (i : Nat) : Payment :=
  { p with
    paidAt := if p.paidAt = none then some now else p.paidAt,
    gatewayReference := if p.gatewayReference = ""
      then "AUTO-REF-" ++ p.paymentReference else p.gatewayReference,
    transactionCode := if p.paymentGateway ∈ mobileMoneyGateways ∧ p.transactionCode = ""
      then mkTransactionCode p.paymentGateway i else p.transactionCode }

/-- The transition table exactly as the specification states it (§4.3),
for comparison with `allowedOrderTransitions` extracted from the source. -/
def specOrderTransitionPairs : List (String × String) :=
  [("pending", "confirmed"), ("pending", "cancelled"),
   ("confirmed", "processing"), ("confirmed", "cancelled"),
   ("processing", "shipped"), ("processing", "cancelled"),
   ("shipped", "delivered"),
   ("delivered", "refunded")]

/-! ## Concrete instances used in witnesses and counterexamples -/

/-- Concrete order used to witness C1: pk set, pending, shipping 20, tax 5,
discount 3, gift-wrap fee 2. -/
def w1order : Order :=
  { pk := some 1, orderNumber := "BABY-1", status := "pending",
    paymentStatus := "pending", paymentMethod := "", paymentReference := "",
    paymentDate := none, shippingMethod := "store_pickup", shippingCounty := "Nairobi",
    subtotal := 0, shippingCost := 20, taxAmount := 5, discountAmount := 3,
    totalAmount := 0, giftWrapping := false, giftWrappingFee := 2,
    confirmedAt := none, processedAt := none, shippedAt := none,
    deliveredAt := none, cancelledAt := none }

/-- Concrete line items used to witness C1. -/
def w1items : List OrderItem :=
  [{ product := 1, productName := "ProductA", productCode := "A1", size := "",
     color := "", unitPrice := 100, quantity := 2, totalPrice := 200 }]

/-- A payment that was already paid earlier (paid_at = 5) and is still marked
pending, against an order that has meanwhile been shipped. -/
def c2payment : Payment :=
  { id := some 1, paymentReference := "PAY-X", gatewayReference := "",
    amount := 250, currency := "KES", paymentGateway := "stripe",
    paymentMethod := "", status := "pending",
    mobileNumber := "", mobileNetwork := "", transactionCode := "",
    cardLast4 := "", cardBrand := "", bankName := "", accountName := "",
    accountNumber := "", initiatedAt := some 1, paidAt := some 5 }

/-- The shipped order associated with `c2payment`. -/
def c2order : Order :=
  { pk := some 1, orderNumber := "BABY-1", status := "shipped", paymentStatus := "pending",
    paymentMethod := "", paymentReference := "", paymentDate := none,
    shippingMethod := "other_towns", shippingCounty := "Mombasa",
    subtotal := 0, shippingCost := 0, taxAmount := 0, discountAmount := 0,
    totalAmount := 0, giftWrapping := false, giftWrappingFee := 0,
    confirmedAt := none, processedAt := none, shippedAt := none,
    deliveredAt := none, cancelledAt := none }

/-- A successful payment whose paid_at is missing (the degenerate record the
self-healing path of `can_be_refunded` targets). -/
def c4payment : Payment :=
  { c2payment with status := "successful", paidAt := none }

/-- The cart of testable property 6: 2 units of ProductA at 100 and 1 unit of
ProductB at 50. -/
def c7cart : Cart :=
  [ { id := 1, product := 1, variant := none, size := "", color := "",
      quantity := 2, unitPrice := 100, productName := "ProductA", productCode := "A1" },
    { id := 2, product := 2, variant := none, size := "", color := "",
      quantity := 1, unitPrice := 50, productName := "ProductB", productCode := "B1" } ]

/-- Checkout request for the scenario: a non-Nairobi delivery, mpesa. -/
def c7params : CheckoutParams :=
  { shippingMethod := "other_towns", paymentMethod := "mpesa", county := "Mombasa" }

/-- The checkout run of testable property 6. -/
def c7res : Except String (Order × List OrderItem × Cart) :=
  checkout c7cart c7params 3 ("BABY-20260101-ABC123") 11

/-- Cart line used to witness C5 and C6. -/
def w5item : CartItem :=
  { id := 1, product := 1, variant := none, size := "", color := "",
    quantity := 2, unitPrice := 100, productName := "ProductA", productCode := "A1" }

/-- One-line cart used to witness C5 and C6. -/
def w5cart : Cart := [w5item]

/-! ## Helper lemmas -/

theorem stamp_subtotal (o : Order) (now : Time) :
    (o.stampStatusTimestamps now).subtotal = o.subtotal := by
  unfold Order.stampStatusTimestamps
  repeat' split
  all_goals rfl

theorem stamp_totalAmount (o : Order) (now : Time) :
    (o.stampStatusTimestamps now).totalAmount = o.totalAmount := by
  unfold Order.stampStatusTimestamps
  repeat' split
  all_goals rfl

theorem stamp_shippingCost (o : Order) (now : Time) :
    (o.stampStatusTimestamps now).shippingCost = o.shippingCost := by
  unfold Order.stampStatusTimestamps
  repeat' split
  all_goals rfl

theorem stamp_taxAmount (o : Order) (now : Time) :
    (o.stampStatusTimestamps now).taxAmount = o.taxAmount := by
  unfold Order.stampStatusTimestamps
  repeat' split
  all_goals rfl

theorem stamp_giftWrappingFee (o : Order) (now : Time) :
    (o.stampStatusTimestamps now).giftWrappingFee = o.giftWrappingFee := by
  unfold Order.stampStatusTimestamps
  repeat' split
  all_goals rfl

theorem stamp_discountAmount (o : Order) (now : Time) :
    (o.stampStatusTimestamps now).discountAmount = o.discountAmount := by
  unfold Order.stampStatusTimestamps
  repeat' split
  all_goals rfl

theorem stamp_pk (o : Order) (now : Time) :
    (o.stampStatusTimestamps now).pk = o.pk := by
  unfold Order.stampStatusTimestamps
  repeat' split
  all_goals rfl

theorem stamp_status (o : Order) (now : Time) :
    (o.stampStatusTimestamps now).status = o.status := by
  unfold Order.stampStatusTimestamps
  repeat' split
  all_goals rfl

theorem stamp_paymentStatus (o : Order) (now : Time) :
    (o.stampStatusTimestamps now).paymentStatus = o.paymentStatus := by
  unfold Order.stampStatusTimestamps
  repeat' split
  all_goals rfl

theorem stamp_paymentDate (o : Order) (now : Time) :
    (o.stampStatusTimestamps now).paymentDate = o.paymentDate := by
  unfold Order.stampStatusTimestamps
  repeat' split
  all_goals rfl

/-- `Order.save` on a row that already has a pk: number generation, totals
recomputation and timestamp stamping, no insert. -/
theorem order_save_of_pk_some (o : Order) (items : List OrderItem) (now : Time)
    (gennum : String) (freshPk : Nat) (h : o.pk ≠ none) :
    Order.save o items now gennum freshPk =
      Order.stampStatusTimestamps
        (Order.calculate_totals
          (if o.orderNumber = "" then { o with orderNumber := gennum } else o) items) now := by
  unfold Order.save
  have h1 : (if o.orderNumber = "" then { o with orderNumber := gennum } else o).pk = o.pk := by
    split <;> rfl
  have h2 : ((if o.orderNumber = "" then { o with orderNumber := gennum } else o).calculate_totals
      items).pk = o.pk := by
    unfold Order.calculate_totals
    rw [h1]
    split <;> simp_all
  simp only [h1, if_pos h, stamp_pk, h2]
  split
  · simp_all
  · rfl

/-- `Order.calculate_totals` on a row with a pk. -/
theorem calculate_totals_of_pk_some (o : Order) (items : List OrderItem)
    (h : o.pk ≠ none) :
    Order.calculate_totals o items =
      { o with
        subtotal := (items.map (fun it => it.totalPrice)).sum,
        totalAmount := (items.map (fun it => it.totalPrice)).sum
          + o.shippingCost + o.taxAmount + o.giftWrappingFee - o.discountAmount } := by
  unfold Order.calculate_totals
  simp [h]

theorem calculate_totals_pk (o : Order) (items : List OrderItem) :
    (o.calculate_totals items).pk = o.pk := by
  unfold Order.calculate_totals
  split <;> rfl

/-- `Order.save` on a row without a pk: no totals recomputation, the insert
assigns the fresh pk. -/
theorem order_save_of_pk_none (o : Order) (items : List OrderItem) (now : Time)
    (gennum : String) (freshPk : Nat) (h : o.pk = none) :
    Order.save o items now gennum freshPk =
      { Order.stampStatusTimestamps
          (if o.orderNumber = "" then { o with orderNumber := gennum } else o) now
        with pk := some freshPk } := by
  have h1 : (if o.orderNumber = "" then { o with orderNumber := gennum } else o).pk = o.pk := by
    split <;> rfl
  unfold Order.save
  rw [if_pos (by rw [stamp_pk]; split <;> simp [calculate_totals_pk, h1, h])]
  rw [if_neg (by rw [h1, h]; simp)]

/-! ## C1 -/

/-- C1: for every order that already has a database identity (pk set) and at
least one line item, after every save the invariant
`total_amount = subtotal + shipping_cost + tax_amount + gift_wrapping_fee -
discount_amount` holds with `subtotal` the sum of `total_price` over the
current order items; and on the initial insert (pk unset) the totals are not
recomputed. -/
theorem order_save_totals_invariant (o : Order) (items : List OrderItem)
    (now : Time) (gennum : String) (freshPk : Nat) :
    (o.pk ≠ none → items ≠ [] →
      (Order.save o items now gennum freshPk).subtotal
          = (items.map (fun it => it.totalPrice)).sum ∧
      (Order.save o items now gennum freshPk).totalAmount
          = (Order.save o items now gennum freshPk).subtotal
            + (Order.save o items now gennum freshPk).shippingCost
            + (Order.save o items now gennum freshPk).taxAmount
            + (Order.save o items now gennum freshPk).giftWrappingFee
            - (Order.save o items now gennum freshPk).discountAmount)
    ∧ (o.pk = none →
      (Order.save o items now gennum freshPk).subtotal = o.subtotal ∧
      (Order.save o items now gennum freshPk).totalAmount = o.totalAmount) := by
  constructor
  · intro hpk _hitems
    rw [order_save_of_pk_some o items now gennum freshPk hpk]
    have h1 : (if o.orderNumber = "" then { o with orderNumber := gennum } else o).pk
        = o.pk := by split <;> rfl
    rw [calculate_totals_of_pk_some _ items (by rw [h1]; exact hpk)]
    have h2 : (if o.orderNumber = "" then { o with orderNumber := gennum } else o).shippingCost
        = o.shippingCost := by split <;> rfl
    have h3 : (if o.orderNumber = "" then { o with orderNumber := gennum } else o).taxAmount
        = o.taxAmount := by split <;> rfl
    have h4 : (if o.orderNumber = "" then { o with orderNumber := gennum } else o).giftWrappingFee
        = o.giftWrappingFee := by split <;> rfl
    have h5 : (if o.orderNumber = "" then { o with orderNumber := gennum } else o).discountAmount
        = o.discountAmount := by split <;> rfl
    constructor
    · rw [stamp_subtotal]
    · rw [stamp_totalAmount, stamp_subtotal, stamp_shippingCost, stamp_taxAmount,
        stamp_giftWrappingFee, stamp_discountAmount]
  · intro hpk
    have h6 : (if o.orderNumber = "" then { o with orderNumber := gennum } else o).subtotal
        = o.subtotal := by split <;> rfl
    have h7 : (if o.orderNumber = "" then { o with orderNumber := gennum } else o).totalAmount
        = o.totalAmount := by split <;> rfl
    rw [order_save_of_pk_none o items now gennum freshPk hpk]
    constructor
    · show (Order.stampStatusTimestamps _ now).subtotal = o.subtotal
      rw [stamp_subtotal, h6]
    · show (Order.stampStatusTimestamps _ now).totalAmount = o.totalAmount
      rw [stamp_totalAmount, h7]

/-- Witness for C1 at a concrete saved order with one item. -/
theorem order_save_totals_invariant_witness :
    w1order.pk ≠ none ∧ w1items ≠ [] ∧
    ((Order.save w1order w1items 3 ("BABY-2") 9).subtotal
        = (w1items.map (fun it => it.totalPrice)).sum ∧
      (Order.save w1order w1items 3 ("BABY-2") 9).totalAmount
        = (Order.save w1order w1items 3 ("BABY-2") 9).subtotal
          + (Order.save w1order w1items 3 ("BABY-2") 9).shippingCost
          + (Order.save w1order w1items 3 ("BABY-2") 9).taxAmount
          + (Order.save w1order w1items 3 ("BABY-2") 9).giftWrappingFee
          - (Order.save w1order w1items 3 ("BABY-2") 9).discountAmount) :=
  ⟨by decide, by decide,
    (order_save_totals_invariant w1order w1items 3 ("BABY-2") 9).1 (by decide) (by decide)⟩

/-! ## C3 -/

/-- The membership test of `validate_status` agrees with the spec's
transition table, for every pair of strings. -/
theorem mem_allowed_iff_spec_pair (cur new : String) :
    new ∈ allowedOrderTransitions cur ↔ (cur, new) ∈ specOrderTransitionPairs := by
  constructor
  · intro hmem
    unfold allowedOrderTransitions at hmem
    split at hmem
    all_goals simp_all [specOrderTransitionPairs]
  · intro h
    simp only [specOrderTransitionPairs, List.mem_cons, List.not_mem_nil, or_false,
      Prod.mk.injEq] at h
    rcases h with h | h | h | h | h | h | h | h
    all_goals rw [h.1, h.2]
    all_goals decide

/-- C3: the guided status-update path accepts a requested new status iff the
pair (current status, new status) is in the transition table
{pending→confirmed|cancelled, confirmed→processing|cancelled,
processing→shipped|cancelled, shipped→delivered, delivered→refunded,
cancelled→∅, refunded→∅}; every other pair is rejected with a validation
error carrying the displayed current and attempted statuses, and the order
is left unchanged (no updated order is produced). -/
theorem order_status_update_guard (o : Order) (newStatus : String)
    (items : List OrderItem) (now : Time) (gennum : String) (freshPk : Nat) :
    ((∃ v, validate_order_status o.status newStatus = Except.ok v) ↔
      (o.status, newStatus) ∈ specOrderTransitionPairs) ∧
    ((o.status, newStatus) ∉ specOrderTransitionPairs →
      applyOrderStatusUpdate o items newStatus now gennum freshPk =
        Except.error (orderStatusDisplay o.status, orderStatusDisplay newStatus)) := by
  constructor
  · constructor
    · intro h
      rcases h with ⟨v, hv⟩
      unfold validate_order_status at hv
      by_cases hm : newStatus ∈ allowedOrderTransitions o.status
      · exact (mem_allowed_iff_spec_pair _ _).1 hm
      · rw [if_neg hm] at hv
        cases hv
    · intro h
      refine ⟨newStatus, ?_⟩
      unfold validate_order_status
      rw [if_pos ((mem_allowed_iff_spec_pair _ _).2 h)]
  · intro h
    have hm : ¬ newStatus ∈ allowedOrderTransitions o.status :=
      fun hmem => h ((mem_allowed_iff_spec_pair _ _).1 hmem)
    unfold applyOrderStatusUpdate validate_order_status
    rw [if_neg hm]

/-- Witness for C3: pending→shipped is not in the table and is rejected with
an error naming both statuses; pending→confirmed is in the table and accepted. -/
theorem order_status_update_guard_witness :
    ¬ (w1order.status, "shipped") ∈ specOrderTransitionPairs ∧
    applyOrderStatusUpdate w1order w1items ("shipped") 3 ("BABY-2") 9 =
      Except.error ("Pending", "Shipped") ∧
    ((∃ v, validate_order_status w1order.status ("confirmed") = Except.ok v) ↔
      (w1order.status, "confirmed") ∈ specOrderTransitionPairs) :=
  ⟨by decide,
   (order_status_update_guard w1order ("shipped") w1items 3 ("BABY-2") 9).2 (by decide),
   (order_status_update_guard w1order ("confirmed") w1items 3 ("BABY-2") 9).1⟩

/-! ## Cart lemmas and C5, C6 -/

theorem applySave_quantity (it : CartItem) :
    (CartItem.applySave it).quantity = if it.quantity < 1 then 1 else it.quantity := by
  unfold CartItem.applySave
  cases hv : it.variant <;> simp only [hv] <;> repeat' split
  all_goals simp_all

/-- A successful `find?` splits the list at the first match, and
`updateFirstMatch` rewrites exactly that element. -/
theorem find?_updateFirstMatch_split (p : α → Bool) (f : α → α) (l : List α) (a : α)
    (h : l.find? p = some a) :
    ∃ l1 l2, l = l1 ++ a :: l2 ∧ (∀ x ∈ l1, p x = false) ∧ p a = true ∧
      updateFirstMatch p f l = l1 ++ f a :: l2 := by
  induction l with
  | nil => cases h
  | cons x xs ih =>
    by_cases hpx : p x = true
    · rw [List.find?_cons_of_pos _ hpx] at h
      cases h
      refine ⟨[], xs, rfl, by simp, hpx, ?_⟩
      unfold updateFirstMatch
      rw [if_pos hpx]
      rfl
    · have hpx' : p x = false := by simpa using hpx
      rw [List.find?_cons_of_neg _ hpx] at h
      rcases ih h with ⟨l1, l2, heq, hl1, hpa, hupd⟩
      refine ⟨x :: l1, l2, by rw [heq]; rfl, ?_, hpa, ?_⟩
      · intro y hy
        rcases List.mem_cons.1 hy with rfl | hy
        · exact hpx'
        · exact hl1 y hy
      · unfold updateFirstMatch
        rw [if_neg (by simp [hpx']), hupd]
        rfl

/-- C5: `add_item` with a (product, variant, size, color) combination already
present in the cart does not create a new line — the line count is unchanged
and the matching line's quantity becomes the sum of its previous quantity and
the added quantity — while a combination not present appends a single new
line carrying the given quantity. -/
theorem add_item_spec (cart : Cart) (product : Nat) (quantity : Int)
    (variant : Option Variant) (size color : String) (unitPrice : Int)
    (productName productCode : String) (freshId : Nat)
    (hq : 1 ≤ quantity) (hwf : ∀ it ∈ cart, 0 ≤ it.quantity) :
    (∀ existing,
      cart.find? (fun it => it.lineMatches product variant size color) = some existing →
      (Cart.add_item cart product quantity variant size color unitPrice
          productName productCode freshId).1.length = cart.length ∧
      ∃ l1 l2, cart = l1 ++ existing :: l2 ∧
        (Cart.add_item cart product quantity variant size color unitPrice
            productName productCode freshId).1
          = l1 ++ CartItem.applySave { existing with quantity := existing.quantity + quantity } :: l2 ∧
        (CartItem.applySave { existing with quantity := existing.quantity + quantity }).quantity
          = existing.quantity + quantity) ∧
    (cart.find? (fun it => it.lineMatches product variant size color) = none →
      ∃ newItem,
        (Cart.add_item cart product quantity variant size color unitPrice
            productName productCode freshId).1 = cart ++ [newItem] ∧
        newItem.quantity = quantity ∧
        (Cart.add_item cart product quantity variant size color unitPrice
            productName productCode freshId).1.length = cart.length + 1) := by
  constructor
  · intro existing h
    rcases find?_updateFirstMatch_split
        (fun it => it.lineMatches product variant size color)
        (fun it => CartItem.applySave { it with quantity := it.quantity + quantity })
        cart existing h with ⟨l1, l2, heq, _hl1, _hpa, hupd⟩
    have hmem : existing ∈ cart := by
      rw [heq]; exact List.mem_append_right l1 (List.mem_cons_self existing l2)
    have hquant : (CartItem.applySave
        { existing with quantity := existing.quantity + quantity }).quantity
        = existing.quantity + quantity := by
      have hnn := hwf existing hmem
      rw [applySave_quantity]
      exact if_neg (by simp only []; omega)
    constructor
    · unfold Cart.add_item
      simp only [h]
      rw [hupd, heq]
      simp
    · refine ⟨l1, l2, heq, ?_, hquant⟩
      unfold Cart.add_item
      simp only [h]
      exact hupd
  · intro h
    unfold Cart.add_item
    simp only [h]
    refine ⟨_, rfl, ?_, by simp⟩
    rw [applySave_quantity]
    exact if_neg (by simp only []; omega)

/-- Witness for C5: adding 3 more of an existing combination keeps one line;
adding an absent combination appends a line with quantity 4. -/
theorem add_item_spec_witness :
    (Cart.add_item w5cart 1 3 none ("") ("") 100 ("ProductA") ("A1") 7).1.length
        = w5cart.length ∧
    (∃ newItem,
      (Cart.add_item w5cart 2 4 none ("") ("") 50 ("ProductB") ("B1") 8).1
          = w5cart ++ [newItem] ∧
      newItem.quantity = 4 ∧
      (Cart.add_item w5cart 2 4 none ("") ("") 50 ("ProductB") ("B1") 8).1.length
          = w5cart.length + 1) :=
  ⟨((add_item_spec w5cart 1 3 none ("") ("") 100 ("ProductA") ("A1") 7
      (by decide) (by decide)).1 w5item (by decide)).1,
   (add_item_spec w5cart 2 4 none ("") ("") 50 ("ProductB") ("B1") 8
      (by decide) (by decide)).2 (by decide)⟩

/-- C6: `update_item_quantity` with quantity ≤ 0 deletes the line and returns
nothing, with quantity ≥ 1 it sets the line's quantity and returns the line;
`decrease_quantity` never deletes a line and clamps the quantity at a minimum
of 1. -/
theorem update_item_quantity_vs_decrease_quantity (cart : Cart) (itemId : Nat)
    (q : Int) (target it : CartItem) (amount : Int)
    (hfound : cart.find? (fun x => x.id == itemId) = some target) :
    (q ≤ 0 → Cart.update_item_quantity cart itemId q
        = (cart.eraseP (fun x => x.id == itemId), none)) ∧
    (1 ≤ q →
      Cart.update_item_quantity cart itemId q
        = (updateFirstMatch (fun x => x.id == itemId)
            (fun x => CartItem.applySave { x with quantity := q }) cart,
           some (CartItem.applySave { target with quantity := q })) ∧
      (CartItem.applySave { target with quantity := q }).quantity = q) ∧
    1 ≤ (CartItem.decrease_quantity it amount).quantity := by
  refine ⟨?_, ?_, ?_⟩
  · intro hq
    unfold Cart.update_item_quantity
    simp only [hfound]
    rw [if_pos hq]
  · intro hq
    constructor
    · unfold Cart.update_item_quantity
      simp only [hfound]
      rw [if_neg (by omega)]
    · rw [applySave_quantity]
      rw [if_neg (by simp only []; omega)]
  · unfold CartItem.decrease_quantity
    rw [applySave_quantity]
    split
    · omega
    · simp only []
      omega

/-- Witness for C6 on the one-line cart: quantity 0 deletes, quantity 5 sets
the quantity to 5, and a large decrease clamps at 1. -/
theorem update_item_quantity_vs_decrease_quantity_witness :
    Cart.update_item_quantity w5cart 1 0 = (w5cart.eraseP (fun x => x.id == 1), none) ∧
    (CartItem.applySave { w5item with quantity := 5 }).quantity = 5 ∧
    1 ≤ (CartItem.decrease_quantity w5item 10).quantity :=
  ⟨(update_item_quantity_vs_decrease_quantity w5cart 1 0 w5item w5item 10 (by decide)).1
      (by decide),
   ((update_item_quantity_vs_decrease_quantity w5cart 1 5 w5item w5item 10 (by decide)).2.1
      (by decide)).2,
   (update_item_quantity_vs_decrease_quantity w5cart 1 0 w5item w5item 10 (by decide)).2.2⟩

/-! ## String and Order.save facts used by the payment proofs -/

theorem string_length_eq_zero_iff (s : String) : s.length = 0 ↔ s = "" := by
  constructor
  · intro h
    cases s with
    | mk data =>
      cases data with
      | nil => rfl
      | cons c cs => simp [String.length] at h
  · intro h
    rw [h]
    rfl

theorem string_append_ne_empty_left (a b : String) (h : a ≠ "") : a ++ b ≠ "" := by
  intro hab
  have hlen := congrArg String.length hab
  rw [String.length_append] at hlen
  have h0 : a.length = 0 := by
    have hz : (("") : String).length = 0 := rfl
    omega
  exact h ((string_length_eq_zero_iff a).1 h0)

theorem string_append_ne_empty_right (a b : String) (h : b ≠ "") : a ++ b ≠ "" := by
  intro hab
  have hlen := congrArg String.length hab
  rw [String.length_append] at hlen
  have h0 : b.length = 0 := by
    have hz : (("") : String).length = 0 := rfl
    omega
  exact h ((string_length_eq_zero_iff b).1 h0)

theorem pyOr_ne_empty (a b : String) (h : b ≠ "") : pyOr a b ≠ "" := by
  unfold pyOr
  split
  · exact h
  · assumption

theorem mkTransactionCode_ne_empty (gateway : String) (i : Nat) :
    mkTransactionCode gateway i ≠ "" := by
  unfold mkTransactionCode
  exact string_append_ne_empty_left _ _
    (string_append_ne_empty_right _ _ (by decide))

theorem order_save_status (o : Order) (items : List OrderItem) (now : Time)
    (gennum : String) (freshPk : Nat) :
    (Order.save o items now gennum freshPk).status = o.status := by
  by_cases h : o.pk = none
  · rw [order_save_of_pk_none o items now gennum freshPk h]
    simp only [stamp_status]
    split <;> rfl
  · rw [order_save_of_pk_some o items now gennum freshPk h]
    simp only [stamp_status]
    unfold Order.calculate_totals
    repeat' split
    all_goals rfl

theorem order_save_paymentStatus (o : Order) (items : List OrderItem) (now : Time)
    (gennum : String) (freshPk : Nat) :
    (Order.save o items now gennum freshPk).paymentStatus = o.paymentStatus := by
  by_cases h : o.pk = none
  · rw [order_save_of_pk_none o items now gennum freshPk h]
    simp only [stamp_paymentStatus]
    split <;> rfl
  · rw [order_save_of_pk_some o items now gennum freshPk h]
    simp only [stamp_paymentStatus]
    unfold Order.calculate_totals
    repeat' split
    all_goals rfl

theorem order_save_paymentDate (o : Order) (items : List OrderItem) (now : Time)
    (gennum : String) (freshPk : Nat) :
    (Order.save o items now gennum freshPk).paymentDate = o.paymentDate := by
  by_cases h : o.pk = none
  · rw [order_save_of_pk_none o items now gennum freshPk h]
    simp only [stamp_paymentDate]
    split <;> rfl
  · rw [order_save_of_pk_some o items now gennum freshPk h]
    simp only [stamp_paymentDate]
    unfold Order.calculate_totals
    repeat' split
    all_goals rfl

/-! ## Payment.save characterization -/

/-- On an already-inserted successful payment, `Payment.save` cannot fail:
it applies exactly the three field fixes and re-synchronizes the order. -/
theorem payment_save_eq_of_successful (p : Payment) (o : Order)
    (items : List OrderItem) (now : Time) (gennum : String) (fpk fid : Nat)
    (i : Nat) (hid : p.id = some i) (hs : p.status = "successful") :
    Payment.save p o items now gennum fpk fid =
      Except.ok (Payment.saveFixes p now i,
        Payment.fix_associated_order (Payment.saveFixes p now i) o items now gennum fpk) := by
  rcases p with ⟨pid, pref, pgwref, pam, pcur, pgw, pmeth, pst, pmob, pnet, ptc,
    pc4, pcb, pbn, pan, pacc, pinit, ppaid⟩
  obtain rfl : pid = some i := hid
  obtain rfl : pst = "successful" := hs
  by_cases h1 : ppaid = none <;> by_cases h2 : pgwref = "" <;>
    by_cases h3 : pgw ∈ mobileMoneyGateways ∧ ptc = ""
  all_goals
    simp [Payment.save, Payment.saveFixes, h1, h2, h3]

/-- `_fix_associated_order` leaves the order paid, dated, and (when it was
still pending) confirmed. -/
theorem fix_associated_order_spec (p : Payment) (o : Order) (items : List OrderItem)
    (now : Time) (gennum : String) (fpk : Nat) :
    (p.fix_associated_order o items now gennum fpk).paymentStatus = "paid" ∧
    (p.fix_associated_order o items now gennum fpk).paymentDate ≠ none ∧
    (o.status = "pending" → (p.fix_associated_order o items now gennum fpk).status = "confirmed") := by
  unfold Payment.fix_associated_order
  by_cases c1 : o.paymentStatus = "paid" <;> by_cases c2 : o.paymentDate = none <;>
    by_cases c3 : o.status = "pending"
  all_goals
    simp_all [order_save_paymentStatus, order_save_paymentDate, order_save_status]

/-! ## C9 -/

/-- C9: every completed `save()` of a successful payment establishes paid_at
non-null, gateway_reference non-empty and (for mobile-money gateways) a
transaction code, and re-synchronizes the parent order: payment_status
'paid', payment_date set, and a still-pending order advanced to 'confirmed' —
the successful-payment integrity invariant is enforced on the write path. -/
theorem payment_save_write_path_invariant (p : Payment) (o : Order)
    (items : List OrderItem) (now : Time) (gennum : String) (fpk fid : Nat)
    (hs : p.status = "successful") (q : Payment) (o2 : Order)
    (hok : Payment.save p o items now gennum fpk fid = Except.ok (q, o2)) :
    q.status = "successful" ∧
    q.paidAt ≠ none ∧
    q.gatewayReference ≠ "" ∧
    (p.paymentGateway ∈ mobileMoneyGateways → q.transactionCode ≠ "") ∧
    o2.paymentStatus = "paid" ∧
    o2.paymentDate ≠ none ∧
    (o.status = "pending" → o2.status = "confirmed") := by
  rcases p with ⟨pid, pref, pgwref, pam, pcur, pgw, pmeth, pst, pmob, pnet, ptc,
    pc4, pcb, pbn, pan, pacc, pinit, ppaid⟩
  obtain rfl : pst = "successful" := hs
  rcases pid with _ | i <;> by_cases h0 : pinit = none <;> by_cases h1 : ppaid = none <;>
    by_cases h2 : pgwref = "" <;>
      by_cases h3 : pgw ∈ mobileMoneyGateways ∧ ptc = "" <;>
        simp only [Payment.save, h0, h1, h2, h3, if_true, if_false, ite_true, ite_false,
          true_and, and_true, and_false, false_and, Option.some.injEq, reduceCtorEq,
          Except.ok.injEq, Prod.mk.injEq] at hok
  all_goals
    first
    | exact hok.elim
    | (obtain ⟨rfl, rfl⟩ := hok
       refine ⟨rfl, ?_, ?_, ?_,
         (fix_associated_order_spec _ o items now gennum fpk).1,
         (fix_associated_order_spec _ o items now gennum fpk).2.1,
         (fix_associated_order_spec _ o items now gennum fpk).2.2⟩
       · simp_all
       · first
         | exact string_append_ne_empty_left _ _ (by decide)
         | simp_all
       · intro hm
         first
         | exact mkTransactionCode_ne_empty _ _
         | (intro hcode; exact h3 ⟨hm, hcode⟩))

/-- Witness for C9: the degenerate successful payment `c4payment` (missing
paid_at, gateway_reference and any transaction code) saved against the
shipped order `c2order`. -/
theorem payment_save_write_path_invariant_witness :
    c4payment.status = "successful" ∧
    (∃ q o2, Payment.save c4payment c2order [] 7 ("BABY-N") 9 9 = Except.ok (q, o2) ∧
      (q.status = "successful" ∧
       q.paidAt ≠ none ∧
       q.gatewayReference ≠ "" ∧
       (c4payment.paymentGateway ∈ mobileMoneyGateways → q.transactionCode ≠ "") ∧
       o2.paymentStatus = "paid" ∧
       o2.paymentDate ≠ none ∧
       (c2order.status = "pending" → o2.status = "confirmed"))) :=
  ⟨rfl, _, _, rfl,
    payment_save_write_path_invariant c4payment c2order [] 7 ("BABY-N") 9 9 rfl _ _ rfl⟩

/-! ## C2 -/

/-- The tail of `mark_as_successful` on an already-inserted successful
payment: the save applies the fixes and the order is then unconditionally
marked as paid. -/
theorem markSuccessfulFinish_spec (r : Payment) (o : Order) (items : List OrderItem)
    (now : Time) (gennum : String) (fpk fid : Nat) (i : Nat)
    (hid : r.id = some i) (hs : r.status = "successful") :
    Payment.markSuccessfulFinish r o items now gennum fpk fid =
      Except.ok (Payment.saveFixes r now i,
        Order.mark_as_paid
          (Payment.fix_associated_order (Payment.saveFixes r now i) o items now gennum fpk)
          items r.paymentGateway r.paymentReference now gennum fpk) := by
  unfold Payment.markSuccessfulFinish
  rw [payment_save_eq_of_successful r o items now gennum fpk fid i hid hs]
  rfl

theorem fix_associated_order_paymentStatus (p : Payment) (o : Order)
    (items : List OrderItem) (now : Time) (gennum : String) (fpk : Nat) :
    (p.fix_associated_order o items now gennum fpk).paymentStatus = "paid" :=
  (fix_associated_order_spec p o items now gennum fpk).1

theorem saveFixes_paidAt (p : Payment) (now : Time) (i : Nat) :
    (Payment.saveFixes p now i).paidAt
      = if p.paidAt = none then some now else p.paidAt := rfl

theorem saveFixes_gatewayReference_ne_empty (p : Payment) (now : Time) (i : Nat) :
    (Payment.saveFixes p now i).gatewayReference ≠ "" := by
  simp only [Payment.saveFixes]
  split
  · exact string_append_ne_empty_left _ _ (by decide)
  · assumption

theorem mark_as_paid_projections (o : Order) (items : List OrderItem)
    (method reference : String) (now : Time) (gennum : String) (fpk : Nat) :
    (Order.mark_as_paid o items method reference now gennum fpk).paymentStatus = "paid" ∧
    (Order.mark_as_paid o items method reference now gennum fpk).paymentDate = some now ∧
    (Order.mark_as_paid o items method reference now gennum fpk).status = "confirmed" := by
  unfold Order.mark_as_paid
  refine ⟨?_, ?_, ?_⟩
  · rw [order_save_paymentStatus]
  · rw [order_save_paymentDate]
  · rw [order_save_status]

/-- C2 (amended): `mark_as_successful` on an already-inserted payment sets
status='successful', fills a non-empty gateway_reference, stamps paid_at only
if it was unset, persists, and propagates to the parent order — but the
propagation (via `Order.mark_as_paid`) sets payment_status='paid',
payment_date to the time of the call (not to paid_at), and sets
Order.status='confirmed' unconditionally, whatever the previous status was. -/
theorem mark_as_successful_propagation (p : Payment) (o : Order)
    (items : List OrderItem) (gatewayRef : String) (details : PaymentDetails)
    (now : Time) (gennum : String) (fpk fid : Nat) (i : Nat)
    (hid : p.id = some i) :
    ∃ q o2, Payment.mark_as_successful p o items gatewayRef details now gennum fpk fid
        = Except.ok (q, o2) ∧
      q.status = "successful" ∧
      q.gatewayReference ≠ "" ∧
      (p.paidAt = none → q.paidAt = some now) ∧
      (∀ t, p.paidAt = some t → q.paidAt = some t) ∧
      o2.paymentStatus = "paid" ∧
      o2.paymentDate = some now ∧
      o2.status = "confirmed" := by
  rcases p with ⟨pid, pref, pgwref, pam, pcur, pgw, pmeth, pst, pmob, pnet, ptc,
    pc4, pcb, pbn, pan, pacc, pinit, ppaid⟩
  obtain rfl : pid = some i := hid
  unfold Payment.mark_as_successful
  by_cases hpa : ppaid = none <;>
    by_cases hm : pgw ∈ mobileMoneyGateways ∧ details.transactionCode.getD ptc = "" <;>
      simp only [Payment.applyDetails, hpa, hm, if_true, if_false, ite_true, ite_false] <;>
        rw [markSuccessfulFinish_spec _ o items now gennum fpk fid i rfl rfl] <;>
          exact ⟨_, _, rfl, rfl, saveFixes_gatewayReference_ne_empty _ now i,
            by intro h; first | exact h.elim | exact absurd h hpa | simp [saveFixes_paidAt],
            by intro t ht
               first
               | exact absurd ht (by simp [hpa])
               | simp [saveFixes_paidAt, hpa, ht],
            (mark_as_paid_projections _ items _ _ now gennum fpk).1,
            (mark_as_paid_projections _ items _ _ now gennum fpk).2.1,
            (mark_as_paid_projections _ items _ _ now gennum fpk).2.2⟩

/-- Witness for C2's amended claim: the concrete payment `c2payment`
(paid_at = 5) against the shipped order `c2order`, marked successful at
time 7. -/
theorem mark_as_successful_propagation_witness :
    c2payment.id = some 1 ∧
    (∃ q o2, Payment.mark_as_successful c2payment c2order [] ("") {} 7 ("BABY-N") 9 9
        = Except.ok (q, o2) ∧
      q.status = "successful" ∧
      q.gatewayReference ≠ "" ∧
      (c2payment.paidAt = none → q.paidAt = some 7) ∧
      (∀ t, c2payment.paidAt = some t → q.paidAt = some t) ∧
      o2.paymentStatus = "paid" ∧
      o2.paymentDate = some 7 ∧
      o2.status = "confirmed") :=
  ⟨rfl, mark_as_successful_propagation c2payment c2order [] ("") {} 7 ("BABY-N") 9 9 1 rfl⟩

/-- Counterexample to C2 as stated: for the payment `c2payment` (paid_at = 5)
on the shipped order `c2order`, `mark_as_successful` at time 7 moves the
order's status from 'shipped' to 'confirmed' (the claim says a non-pending
order keeps its status) and sets Order.payment_date = 7 ≠ paid_at = 5. -/
theorem mark_as_successful_claim_counterexample :
    c2payment.paidAt = some 5 ∧ c2order.status = "shipped" ∧
    (Payment.mark_as_successful c2payment c2order [] ("") {} 7 ("BABY-N") 9 9).toOption.map
        (fun r => (r.2.status, r.2.paymentDate, r.1.paidAt))
      = some ("confirmed", some 7, some 5) ∧
    ("confirmed" : String) ≠ "shipped" ∧ (some 7 : Option Time) ≠ some 5 := by
  refine ⟨rfl, rfl, ?_, by decide, by decide⟩
  rfl

/-! ## C4 -/

/-- C4 (amended): `can_be_refunded` returns true iff the payment's status is
'successful' — a successful payment whose paid_at is missing is self-healed
during the call (paid_at backfilled) and still reported refundable; whenever
true is returned, paid_at is set afterwards. -/
theorem can_be_refunded_iff_successful (p : Payment) (o : Order)
    (items : List OrderItem) (now : Time) (gennum : String) (fpk fid : Nat)
    (i : Nat) (hid : p.id = some i) :
    ∃ b q o2, Payment.can_be_refunded p o items now gennum fpk fid
        = Except.ok (b, q, o2) ∧
      (b = true ↔ p.status = "successful") ∧
      (b = true → q.paidAt ≠ none) := by
  unfold Payment.can_be_refunded
  by_cases hc : p.status = "successful" ∧ p.paidAt = none
  · rw [if_pos hc]
    by_cases hg : p.gatewayReference = "" <;>
      by_cases hmp : p.paymentGateway = "mpesa" ∧ p.transactionCode = "" <;>
        simp only [hg, hmp, if_true, if_false, ite_true, ite_false] <;>
          rw [payment_save_eq_of_successful _ o items now gennum fpk fid i
            (by simp [hid]) (by simp [hc.1])] <;>
            simp only [fix_associated_order_paymentStatus, ne_eq, not_true_eq_false,
              if_false, ite_false] <;>
              exact ⟨true, _, _, rfl, by simp [hc.1],
                fun _ => by simp [saveFixes_paidAt]⟩
  · rw [if_neg hc]
    refine ⟨_, _, _, rfl, ?_, ?_⟩
    · simp only [decide_eq_true_eq]
      constructor
      · intro hb
        exact hb.1
      · intro hsucc
        exact ⟨hsucc, fun hnone => hc ⟨hsucc, hnone⟩⟩
    · intro hb
      simp only [decide_eq_true_eq] at hb
      exact hb.2

/-- Witness for C4's amended claim at the degenerate payment `c4payment`. -/
theorem can_be_refunded_iff_successful_witness :
    c4payment.id = some 1 ∧
    (∃ b q o2, Payment.can_be_refunded c4payment c2order [] 7 ("BABY-N") 9 9
        = Except.ok (b, q, o2) ∧
      (b = true ↔ c4payment.status = "successful") ∧
      (b = true → q.paidAt ≠ none)) :=
  ⟨rfl, can_be_refunded_iff_successful c4payment c2order [] 7 ("BABY-N") 9 9 1 rfl⟩

/-- Counterexample to C4 as stated: `c4payment` is successful with paid_at
unset at the time of the call, yet `can_be_refunded` returns true (the claim
requires paid_at to be set for a true result). -/
theorem can_be_refunded_claim_counterexample :
    c4payment.status = "successful" ∧ c4payment.paidAt = none ∧
    (Payment.can_be_refunded c4payment c2order [] 7 ("BABY-N") 9 9).toOption.map
        (fun r => r.1) = some true := by
  refine ⟨rfl, rfl, ?_⟩
  rfl

/-! ## C7 -/

/-- Counterexample to C7 as stated: checkout has no shipping-cost input (the
Order row is created with the model default shipping_cost = 0), so the
scenario's checkout yields total_amount = 250, not 270; the other asserted
facts (subtotal 250, captured unit prices 100 and 50, emptied cart) do hold. -/
theorem checkout_scenario_counterexample :
    c7res.toOption.map
        (fun r => (r.1.subtotal, r.1.shippingCost, r.1.totalAmount,
          r.2.1.map (fun it => it.unitPrice), r.2.2))
      = some (250, 0, 250, [100, 50], ([] : Cart)) ∧
    ((250 : Int) ≠ 270) := by
  refine ⟨?_, by decide⟩
  rfl

/-- C7 (amended): the scenario checkout produces an order with subtotal 250,
shipping_cost 0 (checkout cannot set a shipping cost; the column default is
0) and total_amount 250, exactly 2 order items with captured unit prices 100
and 50, and an empty cart; if the order's shipping_cost is afterwards set to
20 and the order saved, total_amount becomes 270. -/
theorem checkout_scenario_amended :
    c7res.toOption.map
        (fun r => (r.1.subtotal, r.1.shippingCost, r.1.totalAmount,
          r.2.1.length, r.2.1.map (fun it => it.unitPrice), r.2.2,
          (Order.save { r.1 with shippingCost := 20 } r.2.1 9 ("BABY-X") 11).totalAmount))
      = some (250, 0, 250, 2, [100, 50], ([] : Cart), 270) := by
  rfl

/-! ## C8 -/

/-- C8: checkout validation rejects the metro-only method ('nairobi_only')
whenever the resolved county is not Nairobi, and rejects 'other_towns'
whenever it is Nairobi; both are validation errors and no order is created
(checkout returns an error before the Order row is built). -/
theorem checkout_shipping_method_guard (cart : Cart) (params : CheckoutParams)
    (now : Time) (gennum : String) (freshOrderPk : Nat) :
    (params.shippingMethod = "nairobi_only" → pyLower params.county ≠ "nairobi" →
      checkout cart params now gennum freshOrderPk
        = Except.error ("Nairobi-only delivery is only available for Nairobi county.")) ∧
    (params.shippingMethod = "other_towns" → pyLower params.county = "nairobi" →
      checkout cart params now gennum freshOrderPk
        = Except.error ("Other towns delivery is not available for Nairobi county.")) := by
  constructor
  · intro h1 h2
    unfold checkout validateCheckoutShipping
    rw [if_pos ⟨h1, h2⟩]
  · intro h1 h2
    unfold checkout validateCheckoutShipping
    rw [if_neg (by simp [h1]), if_pos ⟨h1, h2⟩]

/-- Witness for C8: 'nairobi_only' to Mombasa and 'other_towns' to Nairobi
are both rejected on the scenario cart. -/
theorem checkout_shipping_method_guard_witness :
    checkout c7cart
        { shippingMethod := "nairobi_only", paymentMethod := "mpesa", county := "Mombasa" }
        3 ("BABY-W") 11
      = Except.error ("Nairobi-only delivery is only available for Nairobi county.") ∧
    checkout c7cart
        { shippingMethod := "other_towns", paymentMethod := "mpesa", county := "Nairobi" }
        3 ("BABY-W") 11
      = Except.error ("Other towns delivery is not available for Nairobi county.") :=
  ⟨(checkout_shipping_method_guard c7cart
      { shippingMethod := "nairobi_only", paymentMethod := "mpesa", county := "Mombasa" }
      3 ("BABY-W") 11).1 rfl (by decide),
   (checkout_shipping_method_guard c7cart
      { shippingMethod := "other_towns", paymentMethod := "mpesa", county := "Nairobi" }
      3 ("BABY-W") 11).2 rfl (by decide)⟩

/-! ## C10 -/

/-- C10: a Payment constructed without an explicit status starts in the model
field's default status 'pending', not 'initiated'; only the payment-creation
serializer explicitly passes status='initiated' (and then persists that
status, leaving the order untouched). -/
theorem payment_default_status_is_pending (ref : String) (amount : Int)
    (gateway : String) (o : Order) (items : List OrderItem) (refArg ts : String)
    (now : Time) (gennum : String) (fpk fid : Nat) :
    (Payment.newWithDefaults ref amount gateway).status = "pending" ∧
    (Payment.newWithDefaults ref amount gateway).status ≠ "initiated" ∧
    (∃ q o2, paymentCreateSerializer_create o items refArg amount gateway ts
        now gennum fpk fid = Except.ok (q, o2) ∧
      q.status = "initiated" ∧ o2 = o) := by
  refine ⟨rfl, ?_, _, _, rfl, rfl, rfl⟩
  simp [Payment.newWithDefaults, paymentStatusFieldDefault]

end BabyShop
